import Mathlib

/-!
Shallow embedding of the topolith world model (github.com/williamflynt/topolith)
and proofs about the claims of its specification.

The embedding follows the Go source:
  * `pkg/world/item.go`  — Item, ItemParams, itemSet, ItemEqual, Item.String
  * `pkg/world/rel.go`   — Rel, RelParams, relSet, RelEqual, Rel.String, rel ids
  * `pkg/world/tree.go`  — pointer-based containment tree, modelled as a node
                           arena so that the source's shared mutable nodes
                           (parent back-pointer + children sets) are represented
                           exactly, including states where the two disagree
  * `pkg/world/world.go` — World state and its operations
  * `pkg/grammar/grammar.peg` — the PEG grammar, as a backtracking
                           recursive-descent function with threaded state
  * `pkg/app/command.go` — command variants with captured undo state
  * `pkg/app/main.go`    — application command log, exec/undo/redo

Go maps are modelled as association lists (insertion-ordered, unique keys);
Go map iteration order is unspecified, the list order is a deterministic
stand-in.  Recursive tree walks take a fuel argument because the source's
pointer graph can (through the bugs proved below) become a DAG; fuel equal to
the arena size is enough wherever the Go code itself terminates.
-/

namespace Topolith

/-- Error values, from `pkg/errors`. `Code`/`Description`/`Message`/`Data`
plus wrapped errors, as in `errors.TopolithError`. -/
structure TError where
  Code : Nat
  Description : String
  Message : String
  Data : List (String × String)
  errs : List TError
deriving Repr

def errorDescription (code : Nat) : String :=
  if code = 500 then "An unknown error occurred"
  else if code = 400 then "Invalid input"
  else if code = 404 then "Not found"
  else if code = 409 then "Conflict or impossible state"
  else if code = 502 then "Issue with World state sync detected"
  else if code = 600 then "Multiple errors"
  else if code = 450 then "Error while executing command"
  else ""

/-- `errors.New`: message with default code `TopolithErrorInternal` (500). -/
def TError.new (text : String) : TError :=
  { Code := 500, Description := errorDescription 500, Message := text,
    Data := [], errs := [] }

/-- `TopolithError.UseCode`. -/
def TError.useCode (e : TError) (code : Nat) : TError :=
  { e with Code := code,
           Description := if errorDescription code = "" then e.Description
                          else errorDescription code }

/-- `TopolithError.WithData`. -/
def TError.withData (e : TError) (kvs : List (String × String)) : TError :=
  { e with Data := e.Data ++ kvs }

/-- `TopolithError.WithDescription`. -/
def TError.withDescription (e : TError) (d : String) : TError :=
  { e with Description := d }

/-- `TopolithError.WithError`. -/
def TError.withError (e : TError) (inner : List TError) : TError :=
  { e with errs := e.errs ++ inner }

/-- `errors.Join`: wraps the non-nil errors with code 600. -/
def TError.join (es : List TError) : TError :=
  TError.withError (TError.useCode (TError.new "multiple errors") 600) es

/-- `world.Item` (`pkg/world/item.go`). `Type_` is the `ItemType` int. -/
structure Item where
  Id : String
  External : Bool
  Type_ : Int
  Name : String
  Mechanism : String
  Expanded : String
deriving Repr, DecidableEq

def Item.empty : Item :=
  { Id := "", External := false, Type_ := 0, Name := "", Mechanism := "", Expanded := "" }

/-- `world.ItemParams`: pointer fields become `Option`. -/
structure ItemParams where
  External : Option Bool
  Type_ : Option String
  Name : Option String
  Mechanism : Option String
  Expanded : Option String
deriving Repr, DecidableEq

def ItemParams.empty : ItemParams :=
  { External := none, Type_ := none, Name := none, Mechanism := none, Expanded := none }

/-- `world.Rel` (`pkg/world/rel.go`). -/
structure Rel where
  From : Item
  To : Item
  Verb : String
  Mechanism : String
  Async : Bool
  Expanded : String
deriving Repr, DecidableEq

def Rel.empty : Rel :=
  { From := Item.empty, To := Item.empty, Verb := "", Mechanism := "", Async := false,
    Expanded := "" }

/-- `world.RelParams`. -/
structure RelParams where
  Verb : Option String
  Mechanism : Option String
  Async : Option Bool
  Expanded : Option String
deriving Repr, DecidableEq

def RelParams.empty : RelParams :=
  { Verb := none, Mechanism := none, Async := none, Expanded := none }

/-- `RelIdSeparator` and `relIdFromIds`. -/
def relIdFromIds (fromId toId : String) : String :=
  fromId ++ "::" ++ toId

/-- `Rel.id()`. -/
def Rel.rid (r : Rel) : String :=
  relIdFromIds r.From.Id r.To.Id

/-- `StringFromItemType` (`pkg/world/item.go`). -/
def StringFromItemType (t : Int) : String :=
  if t = 1 then "person"
  else if t = 2 then "database"
  else if t = 3 then "queue"
  else if t = 4 then "blobstore"
  else if t = 5 then "browser"
  else if t = 6 then "mobile"
  else if t = 7 then "server"
  else if t = 8 then "device"
  else if t = 9 then "code"
  else ""

/-- `ItemTypeFromString`. -/
def ItemTypeFromString (s : String) : Int :=
  if s = "person" then 1
  else if s = "database" then 2
  else if s = "queue" then 3
  else if s = "blobstore" then 4
  else if s = "browser" then 5
  else if s = "mobile" then 6
  else if s = "server" then 7
  else if s = "device" then 8
  else if s = "code" then 9
  else 0

/-- Go `strconv.Atoi`: optional sign then decimal digits, full-string. -/
def atoi (s : String) : Option Int :=
  let cs := s.data
  let core : List Char → Option Int := fun ds =>
    if ds = [] then none
    else if ds.all Char.isDigit then
      some (Int.ofNat (ds.foldl (fun acc c => acc * 10 + (c.toNat - 48)) 0))
    else none
  match cs with
  | '-' :: rest => (core rest).map (fun n => -n)
  | '+' :: rest => core rest
  | _ => core cs

/-- Association-list model of a Go map: lookup by key. -/
def mapLookup {α : Type} (l : List (String × α)) (k : String) : Option α :=
  match l with
  | [] => none
  | (k', v) :: rest => if k' = k then some v else mapLookup rest k

/-- Association-list model of a Go map: `m[k] = v` (replace or append). -/
def mapInsert {α : Type} (l : List (String × α)) (k : String) (v : α) :
    List (String × α) :=
  match l with
  | [] => [(k, v)]
  | (k', v') :: rest =>
      if k' = k then (k, v) :: rest else (k', v') :: mapInsert rest k v

/-- Association-list model of a Go map: `delete(m, k)`. -/
def mapDelete {α : Type} (l : List (String × α)) (k : String) : List (String × α) :=
  match l with
  | [] => []
  | (k', v') :: rest =>
      if k' = k then mapDelete rest k else (k', v') :: mapDelete rest k

/-- `mapset.Set.Add`: no-op when the element is already present. -/
def setAdd (l : List Nat) (x : Nat) : List Nat :=
  if l.contains x then l else l ++ [x]

/-- `mapset.Set.Remove`. -/
def setRemove (l : List Nat) (x : Nat) : List Nat :=
  l.filter (fun y => y ≠ x)

/-- `itemSet` helper (`pkg/world/world.go`): apply non-nil params to an Item.
`Type` is parsed with `strconv.Atoi`; a non-numeric value is recorded as an
error (code 409) but the other fields are still applied. -/
def itemSet (item : Item) (params : ItemParams) : Item × Option TError :=
  let item := match params.Name with
    | some n => { item with Name := n }
    | none => item
  let item := match params.Expanded with
    | some e => { item with Expanded := e }
    | none => item
  let item := match params.External with
    | some b => { item with External := b }
    | none => item
  let (item, errs) := match params.Type_ with
    | some t =>
        match atoi t with
        | some n => ({ item with Type_ := n }, ([] : List TError))
        | none => (item, [TError.new ("invalid syntax: " ++ t)])
    | none => (item, [])
  let item := match params.Mechanism with
    | some m => { item with Mechanism := m }
    | none => item
  if errs.isEmpty then
    (item, none)
  else
    (item, some (TError.withError
      (TError.useCode (TError.new "error setting Item params") 409) errs))

/-- `relSet` helper: apply non-nil params to a Rel (never errors). -/
def relSet (rel : Rel) (params : RelParams) : Rel :=
  let rel := match params.Verb with
    | some v => { rel with Verb := v }
    | none => rel
  let rel := match params.Mechanism with
    | some m => { rel with Mechanism := m }
    | none => rel
  let rel := match params.Async with
    | some a => { rel with Async := a }
    | none => rel
  match params.Expanded with
  | some e => { rel with Expanded := e }
  | none => rel

/-- `equalItemParams`: Conflict (409, "parameter mismatch") when a non-nil
param differs from the existing attribute; `Type` compares against the
decimal rendering of the existing type. -/
def equalItemParams (existing : Item) (params : ItemParams) : Option TError :=
  let mismatch :=
    (params.Name.isSome && params.Name ≠ some existing.Name) ||
    (params.Expanded.isSome && params.Expanded ≠ some existing.Expanded) ||
    (params.External.isSome && params.External ≠ some existing.External) ||
    (params.Type_.isSome && some (toString existing.Type_) ≠ params.Type_) ||
    (params.Mechanism.isSome && params.Mechanism ≠ some existing.Mechanism)
  if mismatch then
    some (TError.withData (TError.useCode (TError.new "parameter mismatch") 409)
      [("object", "Item")])
  else
    none

/-- `equalRelParams`. -/
def equalRelParams (existing : Rel) (params : RelParams) : Option TError :=
  let mismatch :=
    (params.Verb.isSome && params.Verb ≠ some existing.Verb) ||
    (params.Mechanism.isSome && params.Mechanism ≠ some existing.Mechanism) ||
    (params.Async.isSome && params.Async ≠ some existing.Async) ||
    (params.Expanded.isSome && params.Expanded ≠ some existing.Expanded)
  if mismatch then
    some (TError.withData (TError.useCode (TError.new "parameter mismatch") 409)
      [("object", "Rel")])
  else
    none

/-- `ItemEqual`. -/
def ItemEqual (i1 i2 : Item) : Bool :=
  i1.Id = i2.Id && i1.External = i2.External && i1.Type_ = i2.Type_ &&
  i1.Name = i2.Name && i1.Mechanism = i2.Mechanism && i1.Expanded = i2.Expanded

/-- `RelEqual`. -/
def RelEqual (r1 r2 : Rel) : Bool :=
  ItemEqual r1.From r2.From && ItemEqual r1.To r2.To && r1.Verb = r2.Verb &&
  r1.Mechanism = r2.Mechanism && r1.Async = r2.Async && r1.Expanded = r2.Expanded

/-- A node of the containment tree (`pkg/world/tree.go`).  The source uses
shared mutable `tree` structs with a `parent` back-pointer and a set of
`components`; here the structs live in an arena (`List TNode`) and pointers
are arena indices.  Index 0 is the World's root sentinel.  `parent` is the
back-pointer exactly as stored in the source — the two edge directions are
kept separately because the source updates them separately. -/
structure TNode where
  item : Option Item
  components : List Nat
  parent : Option Nat
deriving Repr, DecidableEq

abbrev Arena := List TNode

def TNode.sentinel : TNode := { item := none, components := [], parent := none }

def arGet (a : Arena) (i : Nat) : TNode := a.getD i TNode.sentinel

def arMod : Arena → Nat → (TNode → TNode) → Arena
  | [], _, _ => []
  | n :: rest, 0, f => f n :: rest
  | n :: rest, Nat.succ i, f => n :: arMod rest i f

/-- Item id of a node; `tree.Item()` yields the zero Item for the sentinel,
whose `Id` is `""`. -/
def nodeId (a : Arena) (i : Nat) : String :=
  ((arGet a i).item.map Item.Id).getD ""

/-- `tree.Has`: with `strict` it only checks this node's own item id;
otherwise it searches the component subtrees too. -/
def treeHas (a : Arena) : Nat → Nat → String → Bool → Bool
  | 0, _, _, _ => false
  | Nat.succ fuel, idx, id, strict =>
    if id = "" then false
    else
      let node := arGet a idx
      let inThisNode := node.item.isSome && nodeId a idx = id
      if inThisNode || strict then inThisNode
      else node.components.any (fun c => treeHas a fuel c id false)

/-- `tree.Find`: depth-first search, this node first, then components in
order; first match wins. -/
def treeFind (a : Arena) : Nat → Nat → String → Option Nat
  | 0, _, _ => none
  | Nat.succ fuel, idx, id =>
    if id = "" then none
    else
      let node := arGet a idx
      if node.item.isSome && nodeId a idx = id then some idx
      else node.components.findSome? (fun c => treeFind a fuel c id)

/-- `tree.Root`: follow parent back-pointers. -/
def treeRoot (a : Arena) : Nat → Nat → Nat
  | 0, idx => idx
  | Nat.succ fuel, idx =>
    match (arGet a idx).parent with
    | none => idx
    | some p => treeRoot a fuel p

/-- Body of `tree.GetDescendantIds` after the `Find`: for each component,
its id followed by its own descendants (the source calls
`c.GetDescendantIds(c.Item().Id)`, which finds `c` itself again). -/
def collectDescIds (a : Arena) : Nat → Nat → List String
  | 0, _ => []
  | Nat.succ fuel, idx =>
    (arGet a idx).components.flatMap (fun c =>
      let cid := nodeId a c
      cid :: (if cid = "" then [] else collectDescIds a fuel c))

/-- `tree.GetDescendantIds`. -/
def treeGetDescendantIds (a : Arena) (fuel idx : Nat) (id : String) : List String :=
  if id = "" then []
  else
    match treeFind a fuel idx id with
    | none => []
    | some n => collectDescIds a fuel n

/-- `tree.AddOrMove`.  When the item's node exists elsewhere it is removed
from the components of the node its `parent` pointer names and added to this
node's components; the source never reassigns the moved node's `parent`
pointer, and neither does this model. -/
def treeAddOrMove (a : Arena) (selfIdx : Nat) (it : Item) : Arena :=
  let fuel := a.length + 1
  if treeHas a fuel selfIdx it.Id true then a
  else
    let root := treeRoot a fuel selfIdx
    match treeFind a fuel root it.Id with
    | some node =>
        let a := match (arGet a node).parent with
          | some p => arMod a p (fun n => { n with components := setRemove n.components node })
          | none => a
        arMod a selfIdx (fun n => { n with components := setAdd n.components node })
    | none =>
        let newIdx := a.length
        let a := a ++ [{ item := some it, components := [], parent := some selfIdx }]
        arMod a selfIdx (fun n => { n with components := setAdd n.components newIdx })

/-- `tree.Delete`: unlink the found node from the node its `parent` pointer
names and hand its components to that node.  (When the parent pointer is nil
the source mutates only the package-level `emptyTree` sentinel, which is
invisible to the World; the node stays in the arena, as the Go object stays
on the heap.) -/
def treeDelete (a : Arena) (rootIdx : Nat) (id : String) : Arena :=
  if id = "" then a
  else
    let fuel := a.length + 1
    match treeFind a fuel rootIdx id with
    | none => a
    | some found =>
        let foundComponents := (arGet a found).components
        match (arGet a found).parent with
        | none => a
        | some p =>
            let a := arMod a p (fun n => { n with components := setRemove n.components found })
            foundComponents.foldl
              (fun acc c =>
                arMod acc p (fun n => { n with components := setAdd n.components c })) a

/-- `world.world` (`pkg/world/world.go`): descriptive info, the Items and
Rels maps, the Tree (node 0 of `arena` is the root sentinel) and the
"latest operation" trackers. -/
structure WorldState where
  Version_ : Int
  Id_ : String
  Name_ : String
  Expanded_ : String
  Items : List (String × Item)
  Rels : List (String × Rel)
  arena : Arena
  latestItem : Item
  latestRel : Rel
  latestErr : Option TError
deriving Repr

/-- `CreateWorld`. -/
def CreateWorld (name : String) : WorldState :=
  { Version_ := 1, Id_ := name, Name_ := name, Expanded_ := "",
    Items := [], Rels := [], arena := [TNode.sentinel],
    latestItem := Item.empty, latestRel := Rel.empty, latestErr := none }

/-- `resetLatestTrackers`. -/
def resetLatest (w : WorldState) : WorldState :=
  { w with latestItem := Item.empty, latestRel := Rel.empty, latestErr := none }

/-- Fuel for tree walks: enough whenever the source's recursion terminates. -/
def wfuel (w : WorldState) : Nat := w.arena.length + 1

/-- `world.Item()`: the latest Item and the latest error. -/
def ItemRes (w : WorldState) : Item × Option TError := (w.latestItem, w.latestErr)

/-- `world.Rel()`: the latest Rel and the latest error. -/
def RelRes (w : WorldState) : Rel × Option TError := (w.latestRel, w.latestErr)

/-- `world.ItemFetch`. -/
def ItemFetch (w : WorldState) (id : String) : Option Item :=
  mapLookup w.Items id

/-- `world.ItemList` (0 = no limit; list order stands in for the map's). -/
def ItemList (w : WorldState) (limit : Nat) : List Item :=
  let items := w.Items.map Prod.snd
  if limit > 0 then items.take limit else items

/-- `world.ItemSet`. -/
def ItemSet (w : WorldState) (id : String) (params : ItemParams) : WorldState :=
  let w := resetLatest w
  match mapLookup w.Items id with
  | none =>
      { w with latestErr := some (TError.withData
          (TError.useCode (TError.new "item not found") 404) [("id", id)]) }
  | some item =>
      let (item, err) := itemSet item params
      let w := match err with
        | some e => { w with latestErr := some e }
        | none => w
      { w with Items := mapInsert w.Items id item, latestItem := item }

/-- `world.ItemCreate`: empty id is invalid; an existing id is compared via
`equalItemParams`; otherwise the bare Item is stored, `ItemSet` applies the
params, the bare Item is recorded as latest, and the node joins the root. -/
def ItemCreate (w : WorldState) (id : String) (params : ItemParams) : WorldState :=
  let w := resetLatest w
  if id = "" then { w with latestErr := some (TError.new "id cannot be empty") }
  else
    match mapLookup w.Items id with
    | some existing =>
        let w := { w with latestItem := existing }
        (match equalItemParams existing params with
         | some err => { w with latestErr := some err }
         | none => w)
    | none =>
        let item := { Item.empty with Id := id }
        let w := { w with Items := mapInsert w.Items id item }
        let w := ItemSet w id params
        let w := { w with latestItem := item }
        { w with arena := treeAddOrMove w.arena 0 item }

/-- `world.ItemDelete`: drop from the Items map, detach from the Tree, and
remove every Rel touching the id. -/
def ItemDelete (w : WorldState) (id : String) : WorldState :=
  let w := resetLatest w
  if id = "" then { w with latestErr := some (TError.new "id cannot be empty") }
  else
    let w := { w with Items := mapDelete w.Items id }
    let w := { w with arena := treeDelete w.arena 0 id }
    { w with Rels := w.Rels.filter (fun kv => ¬(kv.2.From.Id = id ∨ kv.2.To.Id = id)) }

/-- `world.Parent`: the parent's item id via the node's back-pointer (the
source also resets the latest-trackers, which does not affect the result). -/
def Parent (w : WorldState) (childId : String) : String × Bool :=
  match treeFind w.arena (wfuel w) 0 childId with
  | none => ("", false)
  | some n =>
      match (arGet w.arena n).parent with
      | none => ("", true)
      | some p => (nodeId w.arena p, true)

/-- `world.Components`: ids of the direct components. -/
def Components (w : WorldState) (parentId : String) : List String × Bool :=
  match treeFind w.arena (wfuel w) 0 parentId with
  | none => ([], false)
  | some n => ((arGet w.arena n).components.map (nodeId w.arena), true)

/-- `world.In`. -/
def In (w : WorldState) (childId parentId : String) (strict : Bool) : Bool :=
  match treeFind w.arena (wfuel w) 0 parentId with
  | none => false
  | some n => treeHas w.arena (wfuel w) n childId strict

/-- `world.Nest`: both Items must exist; a missing parent tree node is a
fatal `BadSyncState`; otherwise `AddOrMove` under the parent's node. -/
def Nest (w : WorldState) (childId parentId : String) : WorldState :=
  let w := resetLatest w
  match ItemFetch w childId with
  | none =>
      { w with latestErr := some (TError.withData
          (TError.useCode (TError.new "childId for Nest not found") 404)
          [("childId", childId)]) }
  | some item =>
      let w := { w with latestItem := item }
      match ItemFetch w parentId with
      | none =>
          { w with latestErr := some (TError.withData
              (TError.useCode (TError.new "parentId for Nest not found") 404)
              [("parentId", parentId)]) }
      | some _ =>
          match treeFind w.arena (wfuel w) 0 parentId with
          | none =>
              { w with latestErr := some (TError.withData
                  (TError.useCode (TError.new "parentId for Nest not found in Tree") 502)
                  [("parentId", parentId)]) }
          | some t => { w with arena := treeAddOrMove w.arena t item }

/-- `world.Free`: `AddOrMove` under the root sentinel. -/
def Free (w : WorldState) (childId : String) : WorldState :=
  let w := resetLatest w
  match ItemFetch w childId with
  | none =>
      { w with latestErr := some (TError.withData
          (TError.useCode (TError.new "childId for Free not found") 404)
          [("childId", childId)]) }
  | some item =>
      let w := { w with latestItem := item }
      { w with arena := treeAddOrMove w.arena 0 item }

/-- `world.RelSet`. -/
def RelSet (w : WorldState) (fromId toId : String) (params : RelParams) : WorldState :=
  let w := resetLatest w
  match mapLookup w.Rels (relIdFromIds fromId toId) with
  | none =>
      { w with latestErr := some (TError.withData
          (TError.useCode (TError.new "rel not found") 404)
          [("fromId", fromId), ("toId", toId)]) }
  | some rel =>
      let rel := relSet rel params
      { w with Rels := mapInsert w.Rels rel.rid rel, latestRel := rel }

/-- `world.RelCreate`: both endpoints must exist; an existing composite id is
compared via `equalRelParams`; otherwise store the bare Rel, apply params via
`RelSet`, and record the bare Rel as latest. -/
def RelCreate (w : WorldState) (fromId toId : String) (params : RelParams) : WorldState :=
  let w := resetLatest w
  match ItemFetch w fromId with
  | none =>
      { w with latestErr := some (TError.withData
          (TError.useCode (TError.new "fromId for Rel not found") 404)
          [("fromId", fromId)]) }
  | some fromItem =>
      match ItemFetch w toId with
      | none =>
          { w with latestErr := some (TError.withData
              (TError.useCode (TError.new "fromId for Rel not found") 404)
              [("fromId", fromId)]) }
      | some toItem =>
          match mapLookup w.Rels (relIdFromIds fromId toId) with
          | some existing =>
              let w := { w with latestRel := existing }
              (match equalRelParams existing params with
               | some err => { w with latestErr := some err }
               | none => w)
          | none =>
              let rel := { Rel.empty with From := fromItem, To := toItem }
              let w := { w with Rels := mapInsert w.Rels rel.rid rel }
              let w := RelSet w fromId toId params
              { w with latestRel := rel }

/-- `world.RelDelete`: plain map delete (no-op when absent). -/
def RelDelete (w : WorldState) (fromId toId : String) : WorldState :=
  let w := resetLatest w
  { w with Rels := mapDelete w.Rels (relIdFromIds fromId toId) }

/-- `world.RelFetch`: strict is a lookup by composite id; non-strict filters
the Rels whose `From` id is the queried id or one of its tree descendants and
whose `To` id likewise. -/
def RelFetch (w : WorldState) (fromId toId : String) (strict : Bool) : List Rel :=
  if strict then
    match mapLookup w.Rels (relIdFromIds fromId toId) with
    | some rel => [rel]
    | none => []
  else
    let leftIds := treeGetDescendantIds w.arena (wfuel w) 0 fromId ++ [fromId]
    let rightIds := treeGetDescendantIds w.arena (wfuel w) 0 toId ++ [toId]
    (w.Rels.filter (fun kv =>
      leftIds.contains kv.2.From.Id && rightIds.contains kv.2.To.Id)).map Prod.snd

/-- `world.RelTo`: filters on the Rel value's `To` id; `strict` expands the
id set with the descendants (the source's inverted flag). -/
def RelTo (w : WorldState) (toId : String) (strict : Bool) : List Rel :=
  let rightIds := if strict
    then treeGetDescendantIds w.arena (wfuel w) 0 toId ++ [toId]
    else [toId]
  (w.Rels.filter (fun kv => rightIds.contains kv.2.To.Id)).map Prod.snd

/-- `world.RelFrom`: the source ranges `for k, rel := range w.Rels` and tests
`slices.Contains(leftIds, k)` — the map key (the composite id), not the Rel's
`From` id. -/
def RelFrom (w : WorldState) (fromId : String) (strict : Bool) : List Rel :=
  let leftIds := if strict
    then treeGetDescendantIds w.arena (wfuel w) 0 fromId ++ [fromId]
    else [fromId]
  (w.Rels.filter (fun kv => leftIds.contains kv.1)).map Prod.snd

/-- `world.RelList`. -/
def RelList (w : WorldState) (limit : Nat) : List Rel :=
  let rels := w.Rels.map Prod.snd
  if limit > 0 then rels.take limit else rels

def charListLt : List Char → List Char → Bool
  | [], [] => false
  | [], _ :: _ => true
  | _ :: _, [] => false
  | a :: as, b :: bs =>
    if a.toNat < b.toNat then true
    else if b.toNat < a.toNat then false
    else charListLt as bs

/-- Go `<` on strings (lexicographic). -/
def strLt (a b : String) : Bool := charListLt a.data b.data

def insSorted {α : Type} (le : α → α → Bool) (x : α) : List α → List α
  | [] => [x]
  | y :: ys => if le x y then x :: y :: ys else y :: insSorted le x ys

/-- Insertion sort used to model `sort.Slice`. -/
def sortBy {α : Type} (le : α → α → Bool) : List α → List α
  | [] => []
  | x :: rest => insSorted le x (sortBy le rest)

/-- `WorldEqual`: equal info; equal Item sets (sorted by id) with equal
parents and equal (sorted) component id lists; equal Rel sets (sorted by
`From.Id`). -/
def WorldEqual (w1 w2 : WorldState) : Bool :=
  w1.Version_ = w2.Version_ && w1.Id_ = w2.Id_ && w1.Name_ = w2.Name_ &&
  w1.Expanded_ = w2.Expanded_ &&
  (let items1 := sortBy (fun a b => strLt a.Id b.Id) (ItemList w1 0)
   let items2 := sortBy (fun a b => strLt a.Id b.Id) (ItemList w2 0)
   items1.length = items2.length &&
   (items1.zip items2).all (fun p =>
     ItemEqual p.1 p.2 &&
     (Parent w1 p.1.Id).1 = (Parent w2 p.1.Id).1 &&
     (let c1 := sortBy strLt (Components w1 p.1.Id).1
      let c2 := sortBy strLt (Components w2 p.1.Id).1
      c1.length = c2.length && c1 = c2))) &&
  (let rels1 := sortBy (fun a b => strLt a.From.Id b.From.Id) (RelList w1 0)
   let rels2 := sortBy (fun a b => strLt a.From.Id b.From.Id) (RelList w2 0)
   rels1.length = rels2.length &&
   (rels1.zip rels2).all (fun p => RelEqual p.1 p.2))

/-- `Item.String` (`pkg/world/item.go`): `item "<id>" external=<b>` plus the
non-default params, space-separated. -/
def itemToString (i : Item) : String :=
  let base := "item \"" ++ i.Id ++ "\" external=" ++ (if i.External then "true" else "false")
  let paramRepr :=
    (if i.Type_ > 0 then ["type=" ++ StringFromItemType i.Type_] else []) ++
    (if i.Name ≠ "" then ["name=\"" ++ i.Name ++ "\""] else []) ++
    (if i.Mechanism ≠ "" then ["mechanism=\"" ++ i.Mechanism ++ "\""] else []) ++
    (if i.Expanded ≠ "" then ["expanded=\"" ++ i.Expanded ++ "\""] else [])
  if paramRepr.isEmpty then base else base ++ " " ++ String.intercalate " " paramRepr

/-- `Rel.String` (`pkg/world/rel.go`), without the source's re-parse
self-check (which only panics, never changes the returned string). -/
def relToString (r : Rel) : String :=
  let base := "rel \"" ++ r.From.Id ++ "\" \"" ++ r.To.Id ++ "\""
  let paramRepr :=
    (if r.Verb ≠ "" then ["verb=\"" ++ r.Verb ++ "\""] else []) ++
    (if r.Mechanism ≠ "" then ["mechanism=\"" ++ r.Mechanism ++ "\""] else []) ++
    (if r.Async then ["async=true"] else []) ++
    (if r.Expanded ≠ "" then ["expanded=\"" ++ r.Expanded ++ "\""] else [])
  if paramRepr.isEmpty then base else base ++ " " ++ String.intercalate " " paramRepr

/-- `tree.String`: `tree{<item|nil>::[<children space-separated>]}`. -/
def treeToString (a : Arena) : Nat → Nat → String
  | 0, _ => ""
  | Nat.succ fuel, idx =>
    let node := arGet a idx
    let inner := match node.item with
      | some it => itemToString it
      | none => "nil"
    let comps := node.components.map (treeToString a fuel)
    "tree\x7b" ++ inner ++ "::[" ++ String.intercalate " " comps ++ "]\x7d"

/-- `world.String`: the `$$world … endworld$$` block. -/
def worldToString (w : WorldState) : String :=
  let treeString := treeToString w.arena (wfuel w) 0
  let allRels := w.Rels.map (fun kv => relToString kv.2)
  "$$world\nversion=" ++ toString w.Version_ ++ "\nid=" ++ w.Id_ ++
  "\nname=" ++ w.Name_ ++ "\nexpanded=" ++ w.Expanded_ ++ "\n" ++
  treeString ++ "\n" ++ String.intercalate "\n" allRels ++ "\nendworld$$"

/-! ### The PEG grammar (`pkg/grammar/grammar.peg`)

Each PEG rule becomes a function on the input characters, a position and the
threaded action state; ordered choice restarts the second alternative from
the first one's starting position and state, which is exactly the generated
parser's behaviour of discarding the tokens (and hence actions) of a failed
alternative.  Predicates (`&`/`!`) never keep consumption or actions. -/

/-- `grammar.Node`. -/
structure GNode where
  Id : String
  Children : List GNode
deriving Repr

/-- `grammar.InputAttributes`. -/
structure InputAttributes where
  ResourceType : String
  ResourceId : String
  ResourceIds : List String
  SecondaryIds : List String
  Verb : String
  Params : List (String × String)
  Flags : List String
  Raw : String
deriving Repr

/-- `grammar.ResponseObject`. -/
structure RespObject where
  Type_ : String
  Repr_ : String
deriving Repr

/-- `grammar.ResponseStatus`. -/
structure RespStatus where
  Code : Nat
  Message : String
deriving Repr

/-- The action state of `grammar.Parser`. -/
structure PState where
  StmtType : String
  IA : InputAttributes
  RObj : RespObject
  RStatus : RespStatus
  text : String
  number : Nat
  bool : Bool
  Tree : GNode
  TreeString : String
  ItemStrings : List String
  RelStrings : List String
  currentId : String
  nodeStack : List GNode
  WorldParams : List (String × String)
deriving Repr

def PState.init : PState :=
  { StmtType := "",
    IA := { ResourceType := "", ResourceId := "", ResourceIds := [],
            SecondaryIds := [], Verb := "", Params := [], Flags := [], Raw := "" },
    RObj := { Type_ := "", Repr_ := "" },
    RStatus := { Code := 0, Message := "" },
    text := "", number := 0, bool := false,
    Tree := { Id := "", Children := [] }, TreeString := "",
    ItemStrings := [], RelStrings := [], currentId := "", nodeStack := [],
    WorldParams := [] }

/-- Go `unicode.IsSpace` restricted to the grammar's whitespace. -/
def isSpaceChar (c : Char) : Bool :=
  c = ' ' || c = '\t' || c = '\n' || c = '\r'

def trimBothWhile (f : Char → Bool) (l : List Char) : List Char :=
  ((l.dropWhile f).reverse.dropWhile f).reverse

/-- Go `strings.TrimSpace`. -/
def trimSpace (s : String) : String :=
  String.mk (trimBothWhile isSpaceChar s.data)

/-- `grammar.cleanString`: trim space, then trim `"` characters. -/
def cleanString (s : String) : String :=
  String.mk (trimBothWhile (fun c => c = '"') (trimBothWhile isSpaceChar s.data))

def fieldsAux : List Char → List Char → List String
  | [], acc => if acc.isEmpty then [] else [String.mk acc.reverse]
  | c :: rest, acc =>
    if isSpaceChar c then
      if acc.isEmpty then fieldsAux rest []
      else String.mk acc.reverse :: fieldsAux rest []
    else fieldsAux rest (c :: acc)

/-- Go `strings.Fields`. -/
def fields (s : String) : List String := fieldsAux s.data []

/-- A PEG rule: input characters, position, action state. -/
def PFun : Type := List Char → Nat → PState → Option (Nat × PState)

def pEps : PFun := fun _ pos st => some (pos, st)

def pFail : PFun := fun _ _ _ => none

def pSeq (p q : PFun) : PFun := fun inp pos st =>
  match p inp pos st with
  | some (pos', st') => q inp pos' st'
  | none => none

def pAlt (p q : PFun) : PFun := fun inp pos st =>
  match p inp pos st with
  | some r => some r
  | none => q inp pos st

def pOpt (p : PFun) : PFun := pAlt p pEps

/-- Negative lookahead `!p`: consumption and actions are discarded. -/
def pNot (p : PFun) : PFun := fun inp pos st =>
  match p inp pos st with
  | some _ => none
  | none => some (pos, st)

/-- Positive lookahead `&p`: consumption and actions are discarded. -/
def pAnd (p : PFun) : PFun := fun inp pos st =>
  match p inp pos st with
  | some _ => some (pos, st)
  | none => none

def pStarAux (p : PFun) : Nat → PFun
  | 0 => pEps
  | Nat.succ fuel => fun inp pos st =>
    match p inp pos st with
    | none => some (pos, st)
    | some (pos', st') => pStarAux p fuel inp pos' st'

/-- `p*` (the grammar's starred rules all consume input, so fuel bounded by
the remaining input length is exact). -/
def pStar (p : PFun) : PFun := fun inp pos st =>
  pStarAux p (inp.length + 1 - pos) inp pos st

def pPlus (p : PFun) : PFun := pSeq p (pStar p)

def pLit (s : String) : PFun := fun inp pos st =>
  let cs := s.data
  if (inp.drop pos).take cs.length = cs then some (pos + cs.length, st) else none

def pCharClass (f : Char → Bool) : PFun := fun inp pos st =>
  match inp.drop pos with
  | c :: _ => if f c then some (pos + 1, st) else none
  | [] => none

/-- `< p >` with the attached action receiving the matched text. -/
def pCapture (p : PFun) (k : String → PState → PState) : PFun := fun inp pos st =>
  match p inp pos st with
  | some (pos', st') => some (pos', k (String.mk ((inp.drop pos).take (pos' - pos))) st')
  | none => none

/-- A bare semantic action. -/
def pAct (f : PState → PState) : PFun := fun _ pos st => some (pos, f st)

/-- `END <- !.` -/
def pEND : PFun := fun inp pos st =>
  if pos < inp.length then none else some (pos, st)

/-! Terminals.  `kw…` rules swallow trailing whitespace (the `_` of the peg);
`lit…` param-key terminals do not. -/

def pEOL : PFun := pAlt (pLit "\r\n") (pAlt (pLit "\n") (pLit "\r"))

def pWhitespace : PFun := pAlt (pLit " ") (pAlt (pLit "\t") pEOL)

def pWS : PFun := pStar pWhitespace

def kwWORLD : PFun := pSeq (pLit "world") pWS
def kwENDWORLD : PFun := pSeq (pLit "endworld") pWS
def kwERROR : PFun := pSeq (pLit "error") pWS
def kwOK : PFun := pSeq (pLit "ok") pWS
def kwITEM : PFun := pSeq (pLit "item") (pSeq (pOpt (pLit "s")) pWS)
def kwITEM_EXISTS : PFun := pSeq (pLit "item?") pWS
def kwREL : PFun := pSeq (pLit "rel") (pSeq (pOpt (pLit "s")) pWS)
def kwREL_EXISTS : PFun := pSeq (pLit "rel?") pWS
def kwFROM_QUERY : PFun := pSeq (pLit "from?") pWS
def kwTO_QUERY : PFun := pSeq (pLit "to?") pWS
def kwIN : PFun := pSeq (pLit "in") pWS
def kwIN_QUERY : PFun := pSeq (pLit "in?") pWS
def kwCREATE : PFun := pSeq (pLit "create") pWS
def kwDELETE : PFun := pSeq (pLit "delete") pWS
def kwSET : PFun := pSeq (pLit "set") pWS
def kwCLEAR : PFun := pSeq (pLit "clear") pWS
def kwFETCH : PFun := pSeq (pLit "fetch") pWS
def kwLIST : PFun := pSeq (pLit "list") pWS
def kwEXISTS : PFun := pSeq (pLit "exists") pWS
def kwFREE : PFun := pSeq (pLit "free") pWS
def kwNEST : PFun := pSeq (pLit "nest") pWS
def kwTRUE : PFun := pSeq (pLit "true") pWS
def kwFALSE : PFun := pSeq (pLit "false") pWS

def litEXTERNAL : PFun := pLit "external"
def litNAME : PFun := pLit "name"
def litTYPE : PFun := pLit "type"
def litVERB : PFun := pLit "verb"
def litMECHANISM : PFun := pLit "mechanism"
def litASYNC : PFun := pLit "async"
def litEXPANDED : PFun := pLit "expanded"
def litVERSION : PFun := pLit "version"
def litID : PFun := pLit "id"

def kwPERSON : PFun := pSeq (pLit "person") pWS
def kwDATABASE : PFun := pSeq (pLit "database") pWS
def kwQUEUE : PFun := pSeq (pLit "queue") pWS
def kwBLOBSTORE : PFun := pSeq (pLit "blobstore") pWS
def kwBROWSER : PFun := pSeq (pLit "browser") pWS
def kwMOBILE : PFun := pSeq (pLit "mobile") pWS
def kwSERVER : PFun := pSeq (pLit "server") pWS
def kwDEVICE : PFun := pSeq (pLit "device") pWS
def kwCODE : PFun := pSeq (pLit "code") pWS

def kwDELIMITER : PFun := pLit "$$"
def pEQUALS : PFun := pLit "="
def kwFLAG : PFun := pSeq (pLit "-") (pOpt (pLit "-"))
def kwSTRICT : PFun := pSeq (pLit "strict") pWS
def kwVERBOSE : PFun := pSeq (pLit "verbose") pWS
def kwIDS : PFun := pSeq (pLit "ids") pWS

def pKeyword : PFun :=
  pAlt kwWORLD (pAlt kwENDWORLD (pAlt kwERROR (pAlt kwOK (pAlt kwITEM
  (pAlt kwITEM_EXISTS (pAlt kwREL (pAlt kwREL_EXISTS (pAlt kwFROM_QUERY
  (pAlt kwTO_QUERY (pAlt kwIN (pAlt kwIN_QUERY (pAlt kwCREATE (pAlt kwDELETE
  (pAlt kwSET (pAlt kwCLEAR (pAlt kwFETCH (pAlt kwLIST (pAlt kwEXISTS
  (pAlt kwFREE (pAlt kwNEST (pAlt kwFLAG kwDELIMITER)))))))))))))))))))))

def textChar (c : Char) : Bool :=
  c.isAlpha || c.isDigit || c = '-' || c = '_'

def quotedChar (c : Char) : Bool :=
  c.isAlpha || c.isDigit ||
  ("-_.,!@#$%^&*()[]+=~;: ".data).contains c

def pText : PFun := pPlus (pCharClass textChar)

def pQuotedText : PFun :=
  pSeq (pLit "\"") (pSeq (pStar (pCharClass quotedChar)) (pLit "\""))

def pStringLike : PFun :=
  pSeq (pCapture (pAlt pText pQuotedText)
        (fun t st => { st with text := cleanString t })) pWS

def digitsToNat (s : String) : Nat :=
  s.data.foldl (fun a c => a * 10 + (c.toNat - 48)) 0

def pNumber : PFun :=
  pSeq (pCapture (pPlus (pCharClass Char.isDigit))
        (fun t st => { st with number := digitsToNat t })) pWS

def pBoolean : PFun :=
  pCapture (pAlt kwTRUE kwFALSE) (fun t st => { st with bool := t = "true" })

/-! Action helpers on the parser state. -/

def setRT (v : String) (st : PState) : PState :=
  { st with IA := { st.IA with ResourceType := v } }

def setVerb (v : String) (st : PState) : PState :=
  { st with IA := { st.IA with Verb := v } }

def setRId (v : String) (st : PState) : PState :=
  { st with IA := { st.IA with ResourceId := v } }

def pushSecondary (v : String) (st : PState) : PState :=
  { st with IA := { st.IA with SecondaryIds := st.IA.SecondaryIds ++ [v] } }

def setParam (k v : String) (st : PState) : PState :=
  { st with IA := { st.IA with Params := mapInsert st.IA.Params k v } }

def pushFlag (v : String) (st : PState) : PState :=
  { st with IA := { st.IA with Flags := st.IA.Flags ++ [v] } }

def setWP (k v : String) (st : PState) : PState :=
  { st with WorldParams := mapInsert st.WorldParams k v }

/-! Non-terminal rules, in the order of the peg file. -/

def pItem : PFun := pSeq kwITEM (pAct (setRT "item"))
def pRel : PFun := pSeq kwREL (pAct (setRT "rel"))
def pWorld : PFun := pSeq kwWORLD (pAct (setRT "world"))

def pCreate : PFun := pSeq kwCREATE (pAct (setVerb "create"))
def pFetch : PFun := pSeq kwFETCH (pAct (setVerb "fetch"))
def pSet : PFun := pSeq kwSET (pAct (setVerb "set"))
def pClear : PFun := pSeq kwCLEAR (pAct (setVerb "clear"))
def pDelete : PFun := pSeq kwDELETE (pAct (setVerb "delete"))
def pList : PFun := pSeq kwLIST (pAct (setVerb "list"))
def pNest : PFun := pSeq kwNEST (pAct (fun st => setRT "item" (setVerb "nest" st)))
def pFree : PFun := pSeq kwFREE (pAct (fun st => setRT "item" (setVerb "free" st)))
def pExists : PFun := pSeq kwEXISTS (pAct (setVerb "exists"))
def pInQuery : PFun := pSeq kwIN_QUERY (pAct (fun st => setRT "item" (setVerb "in?" st)))
def pFromQuery : PFun := pSeq kwFROM_QUERY (pAct (fun st => setRT "rel" (setVerb "from?" st)))
def pToQuery : PFun := pSeq kwTO_QUERY (pAct (fun st => setRT "rel" (setVerb "to?" st)))

def pItemExists : PFun :=
  pSeq (pAlt kwITEM_EXISTS (pSeq pItem pExists))
       (pAct (fun st => setVerb "exists" (setRT "item" st)))

def pRelExists : PFun :=
  pSeq (pAlt kwREL_EXISTS (pSeq pRel pExists))
       (pAct (fun st => setVerb "exists" (setRT "rel" st)))

def pIdentifier : PFun :=
  pSeq (pNot pKeyword)
       (pCapture pStringLike (fun t st => setRId (cleanString t) st))

def pSecondIdentifier : PFun :=
  pSeq (pNot pKeyword)
       (pSeq (pAnd pIdentifier)
             (pCapture pStringLike (fun t st => pushSecondary (cleanString t) st)))

def pDualIdentifier : PFun := pSeq pIdentifier pSecondIdentifier

def pIdentifierList : PFun :=
  pCapture (pSeq pIdentifier (pStar pIdentifier)) (fun t st =>
    let st := setRId "" st
    { st with IA := { st.IA with
        ResourceIds := st.IA.ResourceIds ++ (fields t).map cleanString } })

def pLimit : PFun :=
  pCapture pNumber (fun t st => setParam "limit" (cleanString t) st)

def pItemTypeRule : PFun :=
  pAlt kwPERSON (pAlt kwDATABASE (pAlt kwQUEUE (pAlt kwBLOBSTORE
  (pAlt kwBROWSER (pAlt kwMOBILE (pAlt kwSERVER (pAlt kwDEVICE kwCODE)))))))

def pItemParam : PFun :=
  pAlt (pSeq litEXTERNAL (pSeq pEQUALS
        (pCapture pBoolean (fun t st => setParam "external" (cleanString t) st))))
 (pAlt (pSeq litTYPE (pSeq pEQUALS
        (pCapture pItemTypeRule (fun t st => setParam "type" (cleanString t) st))))
 (pAlt (pSeq litNAME (pSeq pEQUALS
        (pCapture pStringLike (fun t st => setParam "name" (cleanString t) st))))
 (pAlt (pSeq litMECHANISM (pSeq pEQUALS
        (pCapture pStringLike (fun t st => setParam "mechanism" (cleanString t) st))))
       (pSeq litEXPANDED (pSeq pEQUALS
        (pCapture pStringLike (fun t st => setParam "expanded" (cleanString t) st)))))))

def pRelParam : PFun :=
  pAlt (pSeq litVERB (pSeq pEQUALS
        (pCapture pStringLike (fun t st => setParam "verb" (cleanString t) st))))
 (pAlt (pSeq litMECHANISM (pSeq pEQUALS
        (pCapture pStringLike (fun t st => setParam "mechanism" (cleanString t) st))))
 (pAlt (pSeq litASYNC (pSeq pEQUALS
        (pCapture pBoolean (fun t st => setParam "async" (cleanString t) st))))
       (pSeq litEXPANDED (pSeq pEQUALS
        (pCapture pStringLike (fun t st => setParam "expanded" (cleanString t) st))))))

def pItemParams : PFun := pPlus pItemParam
def pRelParams : PFun := pPlus pRelParam

def pItemKey : PFun :=
  pSeq (pCapture (pAlt litNAME (pAlt litTYPE (pAlt litEXTERNAL
        (pAlt litMECHANISM litEXPANDED))))
        (fun t st => setParam (cleanString t) "" st)) pWS

def pRelKey : PFun :=
  pSeq (pCapture (pAlt litVERB (pAlt litMECHANISM (pAlt litASYNC litEXPANDED)))
        (fun t st => setParam (cleanString t) "" st)) pWS

def pItemKeys : PFun := pPlus pItemKey
def pRelKeys : PFun := pPlus pRelKey

def pMutation : PFun :=
  pAlt (pSeq pItem (pSeq (pAlt pCreate pSet) (pSeq pIdentifier (pOpt pItemParams))))
 (pAlt (pSeq pItem (pSeq pClear (pSeq pIdentifier pItemKeys)))
 (pAlt (pSeq pItem (pSeq pDelete pIdentifier))
 (pAlt (pSeq pRel (pSeq (pAlt pCreate pSet) (pSeq pDualIdentifier (pOpt pRelParams))))
 (pAlt (pSeq pRel (pSeq pClear (pSeq pDualIdentifier pRelKeys)))
       (pSeq pRel (pSeq pDelete pDualIdentifier))))))

def pTreeMutation : PFun :=
  pAlt (pSeq pFree pIdentifierList)
       (pSeq pNest (pSeq pIdentifierList (pSeq pWS (pSeq kwIN
         (pCapture pStringLike (fun t st => pushSecondary (cleanString t) st))))))

def pFetchQuery : PFun :=
  pAlt (pSeq pItem (pSeq pFetch pIdentifier))
 (pAlt (pSeq pRel (pSeq pFetch pDualIdentifier))
       (pSeq pWorld (pAct (setVerb "fetch"))))

def pListQuery : PFun :=
  pAlt (pSeq (pAlt pItem pRel) (pSeq pList (pOpt pLimit)))
 (pAlt (pSeq pItem (pSeq kwIN (pSeq pIdentifier (pAct (setVerb "list")))))
 (pAlt (pSeq pToQuery pIdentifier)
       (pSeq pFromQuery pIdentifier)))

def pExistsQuery : PFun :=
  pAlt (pSeq pInQuery pDualIdentifier)
 (pAlt (pSeq pItemExists pIdentifier)
       (pSeq pRelExists pDualIdentifier))

def pQuery : PFun := pAlt pFetchQuery (pAlt pListQuery pExistsQuery)

def pCreateOrFetch : PFun :=
  pAlt (pSeq pItem (pSeq pIdentifier (pNot pItemParams)))
       (pSeq pRel (pSeq pDualIdentifier (pNot pRelParams)))

def pCreateOrSet : PFun :=
  pAlt (pSeq pItem (pSeq pIdentifier pItemParams))
       (pSeq pRel (pSeq pDualIdentifier pRelParams))

def pStateBound : PFun :=
  pAlt (pSeq pCreateOrFetch (pAct (setVerb "create-or-fetch")))
       (pSeq pCreateOrSet (pAct (setVerb "create-or-set")))

def pStrictFlag : PFun := pSeq kwFLAG (pSeq kwSTRICT (pAct (pushFlag "strict")))
def pVerboseFlag : PFun := pSeq kwFLAG (pSeq kwVERBOSE (pAct (pushFlag "verbose")))
def pIdsFlag : PFun := pSeq kwFLAG (pSeq kwIDS (pAct (pushFlag "ids")))
def pFlagRule : PFun := pAlt pStrictFlag (pAlt pVerboseFlag pIdsFlag)

/-- `Command`: on success also records `StmtType` and the raw buffer. -/
def pCommand : PFun := fun inp pos st =>
  match (pSeq pWS (pSeq (pAlt pMutation (pAlt pTreeMutation (pAlt pQuery pStateBound)))
         (pSeq (pStar pFlagRule) pEND))) inp pos st with
  | some (pos', st') =>
      let st2 := { st' with StmtType := "Command",
                            IA := { st'.IA with Raw := String.mk inp } }
      some (pos', st2)
  | none => none

def pNil : PFun :=
  pSeq (pLit "nil") (pAct (fun st =>
    { st with currentId := "nil",
              nodeStack := st.nodeStack ++ [{ Id := "nil", Children := [] }] }))

def pItemObject : PFun :=
  pCapture (pSeq pItem (pSeq pIdentifier (pOpt pItemParams))) (fun t st =>
    let t' := trimSpace t
    let st := { st with RObj := { Type_ := "item", Repr_ := t' },
                        ItemStrings := st.ItemStrings ++ [t'] }
    let st := { st with currentId := st.IA.ResourceId }
    { st with nodeStack := st.nodeStack ++ [{ Id := st.currentId, Children := [] }] })

def pRelObject : PFun :=
  pCapture (pSeq pRel (pSeq pDualIdentifier (pOpt pRelParams))) (fun t st =>
    let t' := trimSpace t
    { st with RObj := { Type_ := "rel", Repr_ := t' },
              RelStrings := st.RelStrings ++ [t'] })

def jsonArray (l : List String) : String :=
  "[" ++ String.intercalate "," (l.map (fun s => "\"" ++ s ++ "\"")) ++ "]"

def pIdentifierListObject : PFun :=
  pSeq pIdentifierList (pAct (fun st =>
    { st with RObj := { Type_ := "ids", Repr_ := jsonArray st.IA.ResourceIds } }))

/-- The action of the `Tree` rule: pop the finished node and either attach it
to the node below on the stack or make it the parse result. -/
def treeAct (t : String) (st : PState) : PState :=
  let st := { st with StmtType := "Tree",
                      RObj := { Type_ := "tree", Repr_ := t }, TreeString := t }
  match st.nodeStack.getLast? with
  | none => st
  | some node =>
      let rest := st.nodeStack.dropLast
      match rest.getLast? with
      | none => { st with nodeStack := rest, Tree := node }
      | some parentNode =>
          { st with nodeStack := rest.dropLast ++
              [{ parentNode with Children := parentNode.Children ++ [node] }] }

/-- `Tree <- <'tree{' (Nil / ItemObject) '::[' Tree* ']}'> _ {…}`; fuel
decreases with the nesting depth. -/
def pTreeRule : Nat → PFun
  | 0 => pFail
  | Nat.succ fuel =>
    pSeq (pCapture
      (pSeq (pLit "tree\x7b")
      (pSeq (pAlt pNil pItemObject)
      (pSeq (pLit "::[")
      (pSeq (pStar (pTreeRule fuel))
            (pLit "]\x7d"))))) treeAct) pWS

def pErrCode : PFun :=
  pCapture pNumber (fun _ st => { st with RStatus := { st.RStatus with Code := st.number } })

def pStatusObject : PFun :=
  pSeq pErrCode (pSeq (pAlt kwERROR kwOK)
    (pCapture (pStar pStringLike) (fun t st =>
      { st with StmtType := "Status",
                RStatus := { st.RStatus with Message := cleanString t } })))

def pWorldParamVersion : PFun :=
  pSeq litVERSION (pSeq pEQUALS
    (pCapture pNumber (fun t st => setWP "version" (cleanString t) st)))

def pWorldParamId : PFun :=
  pSeq litID (pSeq pEQUALS
    (pCapture pStringLike (fun t st => setWP "id" (cleanString t) st)))

def pWorldParamName : PFun :=
  pSeq litNAME (pSeq pEQUALS
    (pCapture (pOpt pStringLike) (fun t st => setWP "name" (trimSpace t) st)))

def pWorldParamExpanded : PFun :=
  pSeq litEXPANDED (pSeq pEQUALS
    (pCapture (pOpt pStringLike) (fun t st => setWP "expanded" (trimSpace t) st)))

def wpGet (st : PState) (k : String) : String :=
  (mapLookup st.WorldParams k).getD ""

def pWorldParams : PFun :=
  pSeq pWS (pSeq pWorldParamVersion (pSeq pWS (pSeq pWorldParamId
  (pSeq pWS (pSeq pWorldParamName (pSeq pWS (pSeq pWorldParamExpanded
  (pSeq pWS (pAct (fun st =>
    setWP "paramString"
      ("version=" ++ wpGet st "version" ++ "\nid=" ++ wpGet st "id" ++
       "\nname=" ++ wpGet st "name" ++ "\nexpanded=" ++ wpGet st "expanded")
      st))))))))))

def pBeginWorld : PFun := pSeq pWS (pSeq kwDELIMITER (pSeq kwWORLD pWS))
def pEndWorld : PFun := pSeq pWS (pSeq kwENDWORLD (pSeq kwDELIMITER pWS))

def pWorldObject (fuel : Nat) : PFun :=
  pSeq pBeginWorld (pSeq pWorldParams (pSeq (pTreeRule fuel)
  (pSeq (pStar pRelObject) (pSeq pEndWorld (pAct (fun st =>
    { st with StmtType := "WorldObject",
              RObj := { Type_ := "world",
                        Repr_ := String.intercalate "\n"
                          ([wpGet st "paramString", st.TreeString] ++ st.RelStrings) } }))))))

def pObjects (fuel : Nat) : PFun :=
  pAlt (pWorldObject fuel) (pAlt (pTreeRule fuel)
  (pAlt (pPlus pItemObject) (pAlt (pPlus pRelObject) pIdentifierListObject)))

def pResponse (fuel : Nat) : PFun :=
  pSeq (pOpt (pObjects fuel)) (pSeq pWS (pSeq kwDELIMITER (pSeq kwDELIMITER
  (pSeq pWS (pSeq pStatusObject (pSeq pEND
    (pAct (fun st => { st with StmtType := "Response" }))))))))

def pValid (fuel : Nat) : PFun :=
  pAlt pCommand (pAlt (pResponse fuel) (pAlt (pWorldObject fuel)
  (pAlt (pTreeRule fuel) pStatusObject)))

/-- `grammar.Parse`: run the root rule; `none` is a parse error. -/
def grammarParse (s : String) : Option PState :=
  let inp := s.data
  match pValid (inp.length + 1) inp 0 PState.init with
  | some (_, st) => some st
  | none => none

/-! ### `FromString` (`pkg/world/world.go`) and its helpers. -/

/-- `ItemParamsFromInput` (`pkg/world/item.go`). -/
def ItemParamsFromInput (input : InputAttributes) : ItemParams :=
  { External := (mapLookup input.Params "external").map (fun v => v = "true"),
    Type_ := mapLookup input.Params "type",
    Name := mapLookup input.Params "name",
    Mechanism := mapLookup input.Params "mechanism",
    Expanded := mapLookup input.Params "expanded" }

/-- `RelParamsFromInput` (`pkg/world/rel.go`). -/
def RelParamsFromInput (input : InputAttributes) : RelParams :=
  { Verb := mapLookup input.Params "verb",
    Mechanism := mapLookup input.Params "mechanism",
    Async := (mapLookup input.Params "async").map (fun v => v = "true"),
    Expanded := mapLookup input.Params "expanded" }

/-- `ItemFromString`: parse, then `itemSet` on a bare Item — so a
`type=<name>` param fails `strconv.Atoi` inside `itemSet` and surfaces as an
error. -/
def ItemFromString (s : String) : Item × Option TError :=
  match grammarParse s with
  | none =>
      (Item.empty, some (TError.withDescription
        (TError.useCode (TError.new "error parsing Item") 400) "error parsing Item"))
  | some p => itemSet { Item.empty with Id := p.IA.ResourceId } (ItemParamsFromInput p.IA)

/-- `RelFromString`: parse, resolve both endpoint Items, apply params.
(The source indexes `SecondaryIds[0]`; an empty list would panic there and is
modelled as the empty id, which fails the Item lookup.) -/
def RelFromString (w : WorldState) (s : String) : Rel × Option TError :=
  match grammarParse s with
  | none =>
      (Rel.empty, some (TError.useCode (TError.new "error parsing Rel") 400))
  | some p =>
      match ItemFetch w p.IA.ResourceId with
      | none =>
          (Rel.empty, some (TError.withDescription
            (TError.useCode (TError.new "from Item not found") 404) "FromItem not found"))
      | some fromItem =>
          let toId := p.IA.SecondaryIds.getD 0 ""
          match ItemFetch w toId with
          | none =>
              (Rel.empty, some (TError.withDescription
                (TError.useCode (TError.new "to Item not found") 404) "ToItem not found"))
          | some toItem =>
              (relSet { Rel.empty with From := fromItem, To := toItem }
                (RelParamsFromInput p.IA), none)

mutual

def gnodeCount : GNode → Nat
  | { Id := _, Children := cs } => 1 + gnodeCountList cs

def gnodeCountList : List GNode → Nat
  | [] => 0
  | n :: rest => gnodeCount n + gnodeCountList rest

end

/-- The stack-driven nesting loop of `FromString`: pop the last queue item,
push its children tagged with its id, and `Nest` under the recorded parent id
when there is one.  (The root node's id is `"nil"`, so its direct children
get a failing — and ignored — `Nest` under `"nil"`, exactly as the source.) -/
def nestLoop (w : WorldState) : Nat → List (GNode × String) → WorldState
  | 0, _ => w
  | _, [] => w
  | Nat.succ fuel, stack =>
    match stack.getLast? with
    | none => w
    | some cur =>
        let stack := stack.dropLast ++ cur.1.Children.map (fun ch => (ch, cur.1.Id))
        let w := if cur.2 ≠ "" then Nest w cur.1.Id cur.2 else w
        nestLoop w fuel stack

/-- `FromString`: parse the world block, rebuild info, Items (each through
`ItemFromString` then `ItemCreate` with the parsed attributes as params),
nesting, and Rels. -/
def FromString (s : String) : Except TError WorldState :=
  match grammarParse s with
  | none =>
      .error (TError.withDescription
        (TError.useCode (TError.new "error parsing World") 400) "error parsing World")
  | some p =>
      let w := CreateWorld ((mapLookup p.WorldParams "name").getD "")
      let w := match atoi ((mapLookup p.WorldParams "version").getD "") with
        | some v => if v ≠ 0 then { w with Version_ := v } else w
        | none => w
      let w := if (mapLookup p.WorldParams "id").getD "" ≠ ""
        then { w with Id_ := (mapLookup p.WorldParams "id").getD "" } else w
      let w := if (mapLookup p.WorldParams "expanded").getD "" ≠ ""
        then { w with Expanded_ := (mapLookup p.WorldParams "expanded").getD "" } else w
      match p.ItemStrings.foldlM (fun w itemStr =>
          let (item, err) := ItemFromString itemStr
          match err with
          | some e => Except.error e
          | none => Except.ok (ItemCreate w item.Id
              { Name := some item.Name, Expanded := some item.Expanded,
                External := some item.External,
                Type_ := some (toString item.Type_),
                Mechanism := some item.Mechanism })) w with
      | Except.error e => .error e
      | Except.ok w =>
          let w := nestLoop w (gnodeCount p.Tree + 1) [(p.Tree, "")]
          match p.RelStrings.foldlM (fun w relStr =>
              let (rel, err) := RelFromString w relStr
              match err with
              | some e => Except.error e
              | none => Except.ok (RelCreate w rel.From.Id rel.To.Id
                  { Verb := some rel.Verb, Mechanism := some rel.Mechanism,
                    Async := some rel.Async, Expanded := some rel.Expanded })) w with
          | Except.error e => .error e
          | Except.ok w => .ok w

/-! ### Command engine (`pkg/app/command.go`) and Application (`pkg/app/main.go`)

The command variants the claims exercise, with the captured undo state the
source keeps in the command struct.  `cmdExecute` returns the result object,
the error, the (possibly mutated) command and the new world — the Go methods
mutate the command and the world in place. -/

/-- The command variants used by the claims. -/
inductive Cmd where
  | itemCreateCmd (id : String) (params : ItemParams) (noCreate : Bool)
  | itemNestCmd (ids : List String) (parentId : String)
      (oldParentIds : List (String × String)) (noNest : List (String × Bool))
  | itemFreeCmd (ids : List String) (oldParentIds : List (String × String))
  | relDeleteCmd (fromId toId : String) (oldParams : RelParams) (noDelete : Bool)
deriving Repr, DecidableEq

/-- Results of `Command.Execute` (`fmt.Stringer` values in the source). -/
inductive CmdOut where
  | itemOut (i : Item)
  | relOut (r : Rel)
  | boolOut (b : Bool)
deriving Repr, DecidableEq

/-- The loop body of `ItemNestCommand.Execute`.  The accumulated
`oldParentIds` and `noNest` maps correspond to the **local** variables the
source builds (`oldParentIds := make(...)` shadowing the struct field). -/
def nestExecStep (parentId : String)
    (acc : WorldState × List (String × String) × List (String × Bool) × List TError)
    (id : String) :
    WorldState × List (String × String) × List (String × Bool) × List TError :=
  let (w, lop, lnn, errs) := acc
  match Parent w id with
  | (_, false) =>
      (w, lop, mapInsert lnn id true,
       errs ++ [TError.withData (TError.useCode (TError.new "could not find Item") 404)
                  [("id", id)]])
  | (oldParentId, true) =>
      let lop := mapInsert lop id oldParentId
      if oldParentId = parentId then (w, lop, mapInsert lnn id true, errs)
      else (Nest w id parentId, lop, lnn, errs)

/-- The loop body of `ItemFreeCommand.Execute`, likewise over a local map. -/
def freeExecStep
    (acc : WorldState × List (String × String) × List TError) (id : String) :
    WorldState × List (String × String) × List TError :=
  let (w, lop, errs) := acc
  match Parent w id with
  | (_, false) =>
      (w, lop,
       errs ++ [TError.withData (TError.useCode (TError.new "could not find Item") 404)
                  [("id", id)]])
  | (oldParentId, true) =>
      (Free w id, mapInsert lop id oldParentId, errs)

/-- `Command.Execute` for the modelled variants.

* `ItemCreateCommand.Execute` returns the existing Item unchanged (setting
  `noCreate`) without consulting `world.ItemCreate` — so no Conflict can
  surface — and otherwise creates.
* `ItemNestCommand.Execute` / `ItemFreeCommand.Execute` rebuild
  `oldParentIds` (and `noNest`) in fresh local maps which are never assigned
  to the command's fields, so the returned command still carries the empty
  maps it was built with.
* `RelDeleteCommand.Execute` looks up `RelFetch(c.Id, c.Id, true)` — the
  from-id twice — to decide whether anything is deleted. -/
def cmdExecute : Cmd → WorldState → CmdOut × Option TError × Cmd × WorldState
  | Cmd.itemCreateCmd id params noCreate, w =>
    (match ItemFetch w id with
     | some item => (CmdOut.itemOut item, none, Cmd.itemCreateCmd id params true, w)
     | none =>
         let w' := ItemCreate w id params
         (CmdOut.itemOut w'.latestItem, w'.latestErr,
          Cmd.itemCreateCmd id params noCreate, w'))
  | Cmd.itemNestCmd ids parentId oldParentIds noNest, w =>
      let r := ids.foldl (nestExecStep parentId) (w, [], [], [])
      let w' := r.1
      let _localOldParentIds := r.2.1
      let _localNoNest := r.2.2.1
      let errs := r.2.2.2
      if errs.isEmpty then
        (CmdOut.boolOut true, none, Cmd.itemNestCmd ids parentId oldParentIds noNest, w')
      else
        (CmdOut.boolOut false, some (TError.join errs),
         Cmd.itemNestCmd ids parentId oldParentIds noNest, w')
  | Cmd.itemFreeCmd ids oldParentIds, w =>
      let r := ids.foldl freeExecStep (w, [], [])
      let w' := r.1
      let _localOldParentIds := r.2.1
      let errs := r.2.2
      if errs.isEmpty then
        (CmdOut.boolOut true, none, Cmd.itemFreeCmd ids oldParentIds, w')
      else
        (CmdOut.boolOut false, some (TError.join errs), Cmd.itemFreeCmd ids oldParentIds, w')
  | Cmd.relDeleteCmd fromId toId oldParams noDelete, w =>
      match (RelFetch w fromId fromId true).head? with
      | none => (CmdOut.relOut Rel.empty, none,
                 Cmd.relDeleteCmd fromId toId oldParams true, w)
      | some rel =>
          let oldParams' : RelParams :=
            { Verb := some rel.Verb, Mechanism := some rel.Mechanism,
              Async := some rel.Async, Expanded := some rel.Expanded }
          let w' := RelDelete w fromId toId
          (CmdOut.relOut Rel.empty, w'.latestErr,
           Cmd.relDeleteCmd fromId toId oldParams' noDelete, w')

/-- `Command.Undo` for the modelled variants.  `ItemNestCommand.Undo` walks
`c.oldParentIds` (Free when the old parent was the root, Nest otherwise) and
always returns nil; `ItemFreeCommand.Undo` re-nests the non-root entries;
`RelDeleteCommand.Undo` recreates `(c.Id, c.Id)` — the from-id twice. -/
def cmdUndo : Cmd → WorldState → WorldState × Option TError
  | Cmd.itemCreateCmd id _ noCreate, w =>
      if noCreate then (w, none)
      else
        let w' := ItemDelete w id
        (w', w'.latestErr)
  | Cmd.itemNestCmd _ _ oldParentIds _, w =>
      (oldParentIds.foldl (fun w kv =>
        if kv.2 = "" then Free w kv.1 else Nest w kv.1 kv.2) w, none)
  | Cmd.itemFreeCmd _ oldParentIds, w =>
      (oldParentIds.foldl (fun w kv =>
        if kv.2 = "" then w else Nest w kv.1 kv.2) w, none)
  | Cmd.relDeleteCmd fromId _ oldParams noDelete, w =>
      if noDelete then (w, none)
      else
        let w' := RelCreate w fromId fromId oldParams
        (w', w'.latestErr)

/-- `app.app` (`pkg/app/main.go`): the World, the command log and the
cursor (`-1` = empty). -/
structure AppState where
  world : WorldState
  commands : List Cmd
  commandsIdx : Int
deriving Repr

/-- `NewApp`. -/
def newApp (w : WorldState) : AppState :=
  { world := w, commands := [], commandsIdx := -1 }

/-- `app.CanUndo`. -/
def CanUndo (s : AppState) : Bool := s.commandsIdx ≥ 0

/-- `app.CanRedo`. -/
def CanRedo (s : AppState) : Bool := s.commandsIdx < (s.commands.length : Int) - 1

/-- `app.exec`: append the command, advance the cursor, then execute (the
appended command is the one the execution mutates). -/
def appExec (s : AppState) (c : Cmd) : AppState × CmdOut × Option TError :=
  let (out, err, c', w') := cmdExecute c s.world
  ({ world := w', commands := s.commands ++ [c'], commandsIdx := s.commandsIdx + 1 },
   out, err)

/-- `app.undo`: undo the command at the cursor; on an undo error the log is
wiped and the cursor reset to `-1` (the world keeps whatever the partial undo
did); otherwise the cursor moves down. -/
def appUndo (s : AppState) : AppState × Option TError :=
  if s.commandsIdx < 0 then (s, none)
  else
    match s.commands.get? s.commandsIdx.toNat with
    | none => (s, none)
    | some c =>
        let (w', err) := cmdUndo c s.world
        if err.isSome then
          ({ world := w', commands := [], commandsIdx := -1 }, err)
        else
          ({ s with world := w', commandsIdx := s.commandsIdx - 1 }, none)

/-- `app.redo`: when the cursor is not at the end the source executes
`h.commands[h.commandsIdx]` — the command **at** the cursor — and then
increments.  With a cursor of `-1` that index expression panics in Go, which
is modelled as `none`. -/
def appRedo (s : AppState) : Option (AppState × Option TError) :=
  if s.commandsIdx ≥ (s.commands.length : Int) - 1 then some (s, none)
  else if s.commandsIdx < 0 then none
  else
    match s.commands.get? s.commandsIdx.toNat with
    | none => none
    | some c =>
        let (_, err, c', w') := cmdExecute c s.world
        if err.isSome then
          some ({ world := w', commands := [], commandsIdx := -1 }, err)
        else
          some ({ world := w',
                  commands := s.commands.set s.commandsIdx.toNat c',
                  commandsIdx := s.commandsIdx + 1 }, none)

/-- Number of positions at which an item id occurs in the tree reachable from
a node (a well-formed tree has at most one per id). -/
def treeCountId (a : Arena) : Nat → Nat → String → Nat
  | 0, _, _ => 0
  | Nat.succ fuel, idx, id =>
    (if (arGet a idx).item.isSome && nodeId a idx = id then 1 else 0) +
    ((arGet a idx).components.map (fun c => treeCountId a fuel c id)).sum

/-! ### Concrete scenario states used by the claim theorems. -/

/-- Two items, `b` about to be nested under `a`. -/
def wC1 : WorldState :=
  ItemCreate (ItemCreate (CreateWorld "w") "a" ItemParams.empty) "b" ItemParams.empty

/-- Executing `nest b in a` (the command as built by `itemCommand`, with
empty captured-state maps). -/
def rC1 : CmdOut × Option TError × Cmd × WorldState :=
  cmdExecute (Cmd.itemNestCmd ["b"] "a" [] []) wC1

/-- Undoing the executed nest command on the post-execution world. -/
def uC1 : WorldState × Option TError := cmdUndo rC1.2.2.1 rC1.2.2.2

/-- World with item `a` whose `External` attribute is true. -/
def wC2 : WorldState :=
  ItemCreate (CreateWorld "w") "a" { ItemParams.empty with External := some true }

/-- World with item `db`, `external=true`. -/
def wC3 : WorldState :=
  ItemCreate (CreateWorld "w") "db" { ItemParams.empty with External := some true }

/-- Executing `item create db external=false` against `wC3`. -/
def rC3 : CmdOut × Option TError × Cmd × WorldState :=
  cmdExecute (Cmd.itemCreateCmd "db" { ItemParams.empty with External := some false } false) wC3

/-- App after `item create a`, `item create b`, then one undo (cursor 0). -/
def sC4 : AppState :=
  (appUndo (appExec (appExec (newApp (CreateWorld "w"))
    (Cmd.itemCreateCmd "a" ItemParams.empty false)).1
    (Cmd.itemCreateCmd "b" ItemParams.empty false)).1).1

/-- App `sC4` after executing a third command with the redo tail pending. -/
def sC5 : AppState :=
  (appExec sC4 (Cmd.itemCreateCmd "c" ItemParams.empty false)).1

/-- Items `a`, `b` and the Rel `a::b` with verb `uses`. -/
def wC6 : WorldState :=
  RelCreate (ItemCreate (ItemCreate (CreateWorld "w") "a" ItemParams.empty)
    "b" ItemParams.empty) "a" "b" { RelParams.empty with Verb := some "uses" }

/-- The Rel stored at key `a::b` in `wC6`. -/
def relC6 : Rel :=
  { Rel.empty with
      From := { Item.empty with Id := "a" },
      To := { Item.empty with Id := "b" },
      Verb := "uses" }

/-- Items `a` and `b::c` and the Rel from `a` to `b::c` (key `a::b::c`). -/
def wC7 : WorldState :=
  RelCreate (ItemCreate (ItemCreate (CreateWorld "w") "a" ItemParams.empty)
    "b::c" ItemParams.empty) "a" "b::c" RelParams.empty

/-- Items `a`, `b`; `Nest b a`; then `Free b`. -/
def wC8 : WorldState :=
  Free (Nest (ItemCreate (ItemCreate (CreateWorld "w") "a" ItemParams.empty)
    "b" ItemParams.empty) "b" "a") "b"

/-- Executing `rel delete a b` against `wC6` (where `a::b` exists). -/
def rC9 : CmdOut × Option TError × Cmd × WorldState :=
  cmdExecute (Cmd.relDeleteCmd "a" "b" RelParams.empty false) wC6

/-! ### Helper lemmas about the association-list maps and composite Rel ids. -/

theorem mapLookup_mem {α : Type} :
    ∀ {l : List (String × α)} {k : String} {v : α},
      mapLookup l k = some v → (k, v) ∈ l := by
  intro l
  induction l with
  | nil => intro k v h; simp [mapLookup] at h
  | cons kv rest ih =>
      intro k v h
      obtain ⟨k', v'⟩ := kv
      rw [mapLookup] at h
      by_cases hk : k' = k
      · subst hk
        simp at h
        subst h
        exact List.mem_cons_self _ _
      · rw [if_neg hk] at h
        exact List.mem_cons_of_mem _ (ih h)

theorem mapLookup_mapInsert_self {α : Type} :
    ∀ (l : List (String × α)) (k : String) (v : α),
      mapLookup (mapInsert l k v) k = some v := by
  intro l
  induction l with
  | nil => intro k v; simp [mapInsert, mapLookup]
  | cons kv rest ih =>
      intro k v
      obtain ⟨k', v'⟩ := kv
      rw [mapInsert]
      by_cases hk : k' = k
      · rw [if_pos hk, mapLookup, if_pos rfl]
      · rw [if_neg hk, mapLookup, if_neg hk]
        exact ih k v

/-- Filtering an association list with unique keys by a predicate equivalent
to "the key is `k0`" yields exactly the lookup result. -/
theorem filter_map_eq_lookup {α : Type} :
    ∀ {l : List (String × α)} {k0 : String} {p : String × α → Bool},
      (l.map Prod.fst).Nodup →
      (∀ kv ∈ l, (p kv = true ↔ kv.1 = k0)) →
      (l.filter p).map Prod.snd =
        (match mapLookup l k0 with
         | some r => [r]
         | none => []) := by
  intro l
  induction l with
  | nil => intro k0 p _ _; simp [mapLookup]
  | cons kv rest ih =>
      intro k0 p hnd hp
      obtain ⟨k, v⟩ := kv
      rw [List.map_cons, List.nodup_cons] at hnd
      obtain ⟨hk_notin, hnd'⟩ := hnd
      rw [mapLookup]
      by_cases hk : k = k0
      · subst hk
        have hpkv : p (k, v) = true := (hp (k, v) (List.mem_cons_self _ _)).2 rfl
        have hrest : rest.filter p = [] := by
          rw [List.filter_eq_nil_iff]
          intro kv' hkv' hptrue
          have hkeq : kv'.1 = k := (hp kv' (List.mem_cons_of_mem _ hkv')).1 hptrue
          have hmem : kv'.1 ∈ rest.map Prod.fst := List.mem_map_of_mem Prod.fst hkv'
          exact hk_notin (hkeq ▸ hmem)
        simp [List.filter_cons, hpkv, hrest]
      · have hpkv : p (k, v) = false := by
          cases hpb : p (k, v) with
          | false => rfl
          | true => exact absurd ((hp (k, v) (List.mem_cons_self _ _)).1 hpb) hk
        rw [if_neg hk]
        simp only [List.filter_cons, hpkv, Bool.false_eq_true, if_false]
        exact ih hnd' (fun kv h => hp kv (List.mem_cons_of_mem _ h))

theorem relIdFromIds_data (f t : String) :
    (relIdFromIds f t).data = f.data ++ ':' :: ':' :: t.data := by
  show (f ++ "::" ++ t).data = _
  rw [String.data_append, String.data_append, List.append_assoc]
  congr 1

theorem append_colon2_inj :
    ∀ {xs as ys bs : List Char},
      ':' ∉ xs → ':' ∉ as →
      xs ++ ':' :: ':' :: ys = as ++ ':' :: ':' :: bs → xs = as ∧ ys = bs := by
  intro xs
  induction xs with
  | nil =>
      intro as ys bs _ ha h
      cases as with
      | nil => simpa using h
      | cons c as' =>
          rw [List.nil_append, List.cons_append] at h
          have hc : c = ':' := (List.cons.injEq _ _ _ _ ▸ h).1.symm
          exact absurd (hc ▸ List.mem_cons_self c as') ha
  | cons x xs' ih =>
      intro as ys bs hx ha h
      cases as with
      | nil =>
          rw [List.cons_append, List.nil_append] at h
          have hc : x = ':' := (List.cons.injEq _ _ _ _ ▸ h).1
          exact absurd (hc ▸ List.mem_cons_self x xs') hx
      | cons c as' =>
          rw [List.cons_append, List.cons_append] at h
          have h1 := (List.cons.injEq _ _ _ _ ▸ h).1
          have h2 := (List.cons.injEq _ _ _ _ ▸ h).2
          have hx' : ':' ∉ xs' := fun hm => hx (List.mem_cons_of_mem _ hm)
          have ha' : ':' ∉ as' := fun hm => ha (List.mem_cons_of_mem _ hm)
          obtain ⟨hxs, hys⟩ := ih hx' ha' h2
          exact ⟨by rw [h1, hxs], hys⟩

/-- A composite Rel id determines its two parts when neither first part
contains a `':'`. -/
theorem relIdFromIds_inj {f t f' t' : String}
    (hf : ':' ∉ f.data) (hf' : ':' ∉ f'.data)
    (h : relIdFromIds f t = relIdFromIds f' t') : f = f' ∧ t = t' := by
  have hd := congrArg String.data h
  rw [relIdFromIds_data, relIdFromIds_data] at hd
  obtain ⟨h1, h2⟩ := append_colon2_inj hf hf' hd
  exact ⟨String.ext h1, String.ext h2⟩

theorem relSet_From (r : Rel) (p : RelParams) : (relSet r p).From = r.From := by
  obtain ⟨v, m, a, e⟩ := p
  cases v <;> cases m <;> cases a <;> cases e <;> rfl

theorem relSet_To (r : Rel) (p : RelParams) : (relSet r p).To = r.To := by
  obtain ⟨v, m, a, e⟩ := p
  cases v <;> cases m <;> cases a <;> cases e <;> rfl

theorem relSet_rid (r : Rel) (p : RelParams) : (relSet r p).rid = r.rid := by
  unfold Rel.rid
  rw [relSet_From, relSet_To]

/-- `ItemCreate` on a fresh id records the bare `Item{Id: id}` as latest
while the Items map holds the params-applied copy. -/
theorem ItemCreate_fresh (w : WorldState) (id : String) (params : ItemParams)
    (hid : id ≠ "") (hfresh : mapLookup w.Items id = none) :
    (ItemCreate w id params).latestItem = { Item.empty with Id := id } ∧
    mapLookup (ItemCreate w id params).Items id =
      some (itemSet { Item.empty with Id := id } params).1 := by
  rcases hsp : itemSet { Item.empty with Id := id } params with ⟨item2, err2⟩
  unfold ItemCreate ItemSet
  rw [if_neg hid]
  simp only [resetLatest, hfresh, mapLookup_mapInsert_self, hsp]
  cases err2 <;> simp [mapLookup_mapInsert_self]

/-- `RelCreate` with existing endpoints and a fresh composite id records the
bare `Rel{From, To}` as latest while the Rels map holds the params-applied
copy. -/
theorem RelCreate_fresh (w : WorldState) (fromId toId : String) (params : RelParams)
    (fi ti : Item) (hfi : ItemFetch w fromId = some fi) (hfid : fi.Id = fromId)
    (hti : ItemFetch w toId = some ti) (htid : ti.Id = toId)
    (hfresh : mapLookup w.Rels (relIdFromIds fromId toId) = none) :
    (RelCreate w fromId toId params).latestRel = { Rel.empty with From := fi, To := ti } ∧
    mapLookup (RelCreate w fromId toId params).Rels (relIdFromIds fromId toId) =
      some (relSet { Rel.empty with From := fi, To := ti } params) := by
  have hfi2 : mapLookup w.Items fromId = some fi := hfi
  have hti2 : mapLookup w.Items toId = some ti := hti
  unfold RelCreate RelSet ItemFetch
  simp only [resetLatest, hfi2, hti2, hfresh, Rel.rid]
  simp only [hfid, htid, hfresh, relSet_From, relSet_To, mapLookup_mapInsert_self]
  simp only [hfid, htid, mapLookup_mapInsert_self, and_self, true_and, and_true]

/-! ### Claim theorems. -/

/-- C1: the claim says execute-then-undo restores the pre-state for every
command that executes without error, in particular that nest/free undo
restores each moved item's previous parent.  The code violates it:
`ItemNestCommand.Execute` stores the captured previous parents only in a
local map, so `Undo` (which walks the command's — still empty — field) is a
no-op.  Here `nest b in a` executes without error and its undo succeeds, yet
the world is not equal to the pre-state: `b` is still a component of `a`. -/
theorem C1_nest_execute_undo_not_inverse :
    rC1.2.1.isNone = true ∧
    uC1.2.isNone = true ∧
    WorldEqual wC1 uC1.1 = false ∧
    (Components uC1.1 "a").1 = ["b"] ∧
    (Components wC1 "a").1 = [] := by decide

/-- The round trip `FromString (worldToString wC2)` of C2. -/
def rtC2 : Except TError WorldState := FromString (worldToString wC2)

/-- C2: the claim says `FromString (w.String())` succeeds and yields a world
equal to `w` for every world.  The code violates it: `ItemCreate` hands the
Tree a pointer to the bare `Item{Id: id}` local while the params are applied
only to the copy in the Items map, so `world.String` (which renders items
from the Tree) prints every item without its attributes.  For the world
whose item `a` has `External = true`, parsing the serialized form succeeds
but yields `a` with `External = false`, and the worlds are not equal. -/
theorem C2_world_roundtrip_fails :
    rtC2.toOption.map (fun w2 => (WorldEqual wC2 w2, (ItemFetch w2 "a").map Item.External)) =
      some (false, some false) ∧
    (ItemFetch wC2 "a").map Item.External = some true := by decide

/-- C3: the claim says an item create command whose non-null params mismatch
the existing Item returns Conflict 409 "parameter mismatch".
`ItemCreateCommand.Execute` returns the existing Item with a nil error
without ever consulting `world.ItemCreate`, so the 409 the world layer would
produce (third conjunct) never surfaces; the command reports success. -/
theorem C3_item_create_conflict_not_surfaced :
    rC3.1 = CmdOut.itemOut { Item.empty with Id := "db", External := true } ∧
    rC3.2.1.isNone = true ∧
    (ItemCreate wC3 "db" { ItemParams.empty with External := some false }).latestErr.map
      (fun e => (e.Code, e.Message)) = some (409, "parameter mismatch") ∧
    rC3.2.2.2.Items = wC3.Items := by decide

/-- C4: the claim says `Redo` calls execute on the command at cursor+1.
The code executes `h.commands[h.commandsIdx]` — the command at the cursor —
and then increments: after `create a`, `create b`, one undo (cursor 0), a
redo succeeds and moves the cursor to 1, but re-executes the `a`-create
(flipping its `noCreate` flag) and `b` is still absent; and with the cursor
at `-1` the index expression panics (`appRedo = none`). -/
theorem C4_redo_executes_cursor_command :
    (appRedo sC4).map (fun p =>
      (p.2.isNone, p.1.commandsIdx, (ItemFetch p.1.world "b").isNone,
       p.1.commands.get? 0)) =
      some (true, 1, true, some (Cmd.itemCreateCmd "a" ItemParams.empty true)) ∧
    (appRedo { sC4 with commandsIdx := -1 }).isNone = true := by decide

/-- C5: the claim says executing any new command truncates the redoable tail,
so `CanRedo` is false immediately after executing a command.  `app.exec`
appends without truncating: starting from a state with a redoable tail
(cursor 0, two logged commands), executing a third command leaves the log at
length 3 with cursor 1, and `CanRedo` is still true. -/
theorem C5_exec_keeps_redo_tail :
    CanRedo sC4 = true ∧
    CanRedo sC5 = true ∧
    sC5.commandsIdx = 1 ∧
    sC5.commands.length = 3 := by decide

/-- C6: the claim says `RelFrom(id, strict)` returns exactly the Rels whose
source id lies in the id set.  The code compares the Rels-map **key** (the
composite `from::to` id) against the plain-id set, so for the world with Rel
`a::b` both `RelFrom a false` and `RelFrom a true` return nothing, while the
Rel is present and `RelTo b false` (which correctly tests the value's `To`
id) returns it. -/
theorem C6_relFrom_returns_nothing :
    mapLookup wC6.Rels "a::b" = some relC6 ∧
    RelFrom wC6 "a" false = [] ∧
    RelFrom wC6 "a" true = [] ∧
    RelTo wC6 "b" false = [relC6] := by decide

/-- The Rel stored at key `a::b::c` in `wC7`. -/
def relC7 : Rel :=
  { Rel.empty with
      From := { Item.empty with Id := "a" },
      To := { Item.empty with Id := "b::c" } }

/-- C7 counterexample: the claim's degenerate case — "when neither id has
descendants the non-strict result equals the strict lookup" — fails as
stated.  In `wC7` the Rel from `a` to `b::c` is stored under the composite
key `a::b::c`; the query ids `a::b` and `c` have no descendants, yet the
strict lookup of `a::b` / `c` finds that Rel (its composite id collides)
while the non-strict filter finds nothing. -/
theorem C7_relFetch_degenerate_counterexample :
    treeGetDescendantIds wC7.arena (wfuel wC7) 0 "a::b" = [] ∧
    treeGetDescendantIds wC7.arena (wfuel wC7) 0 "c" = [] ∧
    RelFetch wC7 "a::b" "c" false = [] ∧
    RelFetch wC7 "a::b" "c" true = [relC7] := by decide

/-- C7 as amended: under the Rels-map key invariant (every key is the
composite id of its Rel), strict `RelFetch` returns only Rels whose
composite id is `fromId::toId` and is empty exactly when the key is absent;
non-strict `RelFetch` returns exactly the Rels whose `From` id is in
{fromId} ∪ descendants(fromId) and whose `To` id is in the analogous set;
and — the amended degenerate case — when neither id has descendants, the
keys are unique, and no involved id contains `':'`, the non-strict result
equals the strict lookup. -/
theorem C7_relFetch_amended (w : WorldState) (fromId toId : String)
    (hcoh : ∀ kv ∈ w.Rels, kv.1 = relIdFromIds kv.2.From.Id kv.2.To.Id) :
    (∀ r ∈ RelFetch w fromId toId true, Rel.rid r = relIdFromIds fromId toId) ∧
    (RelFetch w fromId toId true = [] ↔
      mapLookup w.Rels (relIdFromIds fromId toId) = none) ∧
    (∀ r, r ∈ RelFetch w fromId toId false ↔
      (∃ k, (k, r) ∈ w.Rels) ∧
      r.From.Id ∈ treeGetDescendantIds w.arena (wfuel w) 0 fromId ++ [fromId] ∧
      r.To.Id ∈ treeGetDescendantIds w.arena (wfuel w) 0 toId ++ [toId]) ∧
    ((w.Rels.map Prod.fst).Nodup →
     treeGetDescendantIds w.arena (wfuel w) 0 fromId = [] →
     treeGetDescendantIds w.arena (wfuel w) 0 toId = [] →
     ':' ∉ fromId.data → ':' ∉ toId.data →
     (∀ kv ∈ w.Rels, ':' ∉ kv.2.From.Id.data ∧ ':' ∉ kv.2.To.Id.data) →
     RelFetch w fromId toId false = RelFetch w fromId toId true) := by
  refine ⟨?_, ?_, ?_, ?_⟩
  · intro r hr
    unfold RelFetch at hr
    rw [if_pos rfl] at hr
    cases heq : mapLookup w.Rels (relIdFromIds fromId toId) with
    | none => rw [heq] at hr; simp at hr
    | some v =>
        rw [heq] at hr
        simp at hr
        subst hr
        have := hcoh (relIdFromIds fromId toId, r) (mapLookup_mem heq)
        exact this.symm
  · unfold RelFetch
    rw [if_pos rfl]
    cases heq : mapLookup w.Rels (relIdFromIds fromId toId) <;> simp
  · intro r
    unfold RelFetch
    rw [if_neg (by simp)]
    simp only [List.mem_map, List.mem_filter, List.contains, List.elem_iff,
      Bool.and_eq_true]
    constructor
    · rintro ⟨⟨k, v⟩, ⟨hmem, hleft, hright⟩, hv⟩
      subst hv
      exact ⟨⟨k, hmem⟩, hleft, hright⟩
    · rintro ⟨⟨k, hmem⟩, hleft, hright⟩
      exact ⟨(k, r), ⟨hmem, hleft, hright⟩, rfl⟩
  · intro hnd hdf hdt hcf hct hends
    have hp : ∀ kv ∈ w.Rels,
        (([fromId].contains kv.2.From.Id && [toId].contains kv.2.To.Id) = true ↔
         kv.1 = relIdFromIds fromId toId) := by
      intro kv hkv
      constructor
      · intro hptrue
        simp [List.contains, List.elem_iff] at hptrue
        rw [hcoh kv hkv, hptrue.1, hptrue.2]
      · intro hkeq
        rw [hcoh kv hkv] at hkeq
        obtain ⟨hFrom, hTo⟩ := relIdFromIds_inj (hends kv hkv).1 hcf hkeq
        simp [List.contains, List.elem_iff, hFrom, hTo]
    have hfilter := filter_map_eq_lookup hnd hp
    unfold RelFetch
    rw [if_neg (by simp), if_pos rfl, hdf, hdt]
    simp only [List.nil_append]
    cases heq : mapLookup w.Rels (relIdFromIds fromId toId) with
    | none => rw [heq] at hfilter; simpa using hfilter
    | some v => rw [heq] at hfilter; simpa using hfilter

/-- World with items `a`, `b` (no `':'` anywhere) and the Rel `a::b`, used to
instantiate the amended C7 theorem. -/
def wC7w : WorldState :=
  RelCreate (ItemCreate (ItemCreate (CreateWorld "w") "a" ItemParams.empty)
    "b" ItemParams.empty) "a" "b" RelParams.empty

/-- Witness for the amended C7 theorem at `wC7w` with query ids `a`, `b`:
the hypotheses hold there and the theorem applies. -/
theorem C7_relFetch_amended_witness :
    (∀ kv ∈ wC7w.Rels, kv.1 = relIdFromIds kv.2.From.Id kv.2.To.Id) ∧
    ((∀ r ∈ RelFetch wC7w "a" "b" true, Rel.rid r = relIdFromIds "a" "b") ∧
     (RelFetch wC7w "a" "b" true = [] ↔
       mapLookup wC7w.Rels (relIdFromIds "a" "b") = none) ∧
     (∀ r, r ∈ RelFetch wC7w "a" "b" false ↔
       (∃ k, (k, r) ∈ wC7w.Rels) ∧
       r.From.Id ∈ treeGetDescendantIds wC7w.arena (wfuel wC7w) 0 "a" ++ ["a"] ∧
       r.To.Id ∈ treeGetDescendantIds wC7w.arena (wfuel wC7w) 0 "b" ++ ["b"]) ∧
     ((wC7w.Rels.map Prod.fst).Nodup →
      treeGetDescendantIds wC7w.arena (wfuel wC7w) 0 "a" = [] →
      treeGetDescendantIds wC7w.arena (wfuel wC7w) 0 "b" = [] →
      ':' ∉ "a".data → ':' ∉ "b".data →
      (∀ kv ∈ wC7w.Rels, ':' ∉ kv.2.From.Id.data ∧ ':' ∉ kv.2.To.Id.data) →
      RelFetch wC7w "a" "b" false = RelFetch wC7w "a" "b" true)) :=
  ⟨by decide, C7_relFetch_amended wC7w "a" "b" (by decide)⟩

/-- C8: the claim says every public World operation preserves map/tree sync
and the single-parent invariant.  `tree.AddOrMove` moves a node between
component sets without updating its parent back-pointer; after
`ItemCreate a; ItemCreate b; Nest b a; Free b` (each succeeding — the final
`latestErr` is nil), `Free`'s `AddOrMove` consults the stale pointer, removes
`b` from the root's components (where it is not) and adds it to the root
while it is still a component of `a`: the id `b` now occurs at two tree
positions. -/
theorem C8_tree_single_parent_violated :
    wC8.latestErr.isNone = true ∧
    treeCountId wC8.arena (wfuel wC8) 0 "b" = 2 ∧
    (Components wC8 "a").1 = ["b"] ∧
    ((arGet wC8.arena 0).components.map (nodeId wC8.arena)).contains "b" = true ∧
    (mapLookup wC8.Items "b").isSome = true := by decide

/-- C9: the claim says executing rel delete for an existing Rel
`fromId::toId` (fromId ≠ toId allowed) removes it.
`RelDeleteCommand.Execute` decides via `RelFetch(c.Id, c.Id, true)` — the
from-id twice — so for the existing Rel `a::b` it finds nothing, sets
`noDelete`, and returns success without deleting; the Rel is still present
and the subsequent undo is a no-op. -/
theorem C9_rel_delete_existing_noop :
    rC9.2.1.isNone = true ∧
    mapLookup rC9.2.2.2.Rels "a::b" = some relC6 ∧
    rC9.2.2.1 = Cmd.relDeleteCmd "a" "b" RelParams.empty true ∧
    (cmdUndo rC9.2.2.1 rC9.2.2.2).2.isNone = true ∧
    mapLookup (cmdUndo rC9.2.2.1 rC9.2.2.2).1.Rels "a::b" = some relC6 := by decide

/-- World with items `a`, `b` used to instantiate C10's Rel part. -/
def wC10 : WorldState :=
  ItemCreate (ItemCreate (CreateWorld "w") "a" ItemParams.empty) "b" ItemParams.empty

/-- The stored Item `a` of `wC10`. -/
def fiC10 : Item := { Item.empty with Id := "a" }

/-- The stored Item `b` of `wC10`. -/
def tiC10 : Item := { Item.empty with Id := "b" }

/-- Item params carrying a name, for the C10 witness. -/
def paramsC10 : ItemParams := { ItemParams.empty with Name := some "postgres" }

/-- Rel params carrying a verb, for the C10 witness. -/
def rparamsC10 : RelParams := { RelParams.empty with Verb := some "uses" }

/-- C10: after `ItemCreate` creates a new Item, the `Item()` accessor yields
the bare `Item{Id: id}` — the supplied params are not reflected — while the
Items map holds the params-applied copy (`itemSet` of the bare Item); and
`RelCreate` behaves the same way for `Rel()` versus the Rels map. -/
theorem C10_create_accessor_vs_map
    (w : WorldState) (id : String) (params : ItemParams)
    (hid : id ≠ "") (hfresh : mapLookup w.Items id = none)
    (w2 : WorldState) (fromId toId : String) (rparams : RelParams) (fi ti : Item)
    (hfi : ItemFetch w2 fromId = some fi) (hfid : fi.Id = fromId)
    (hti : ItemFetch w2 toId = some ti) (htid : ti.Id = toId)
    (hrfresh : mapLookup w2.Rels (relIdFromIds fromId toId) = none) :
    (ItemRes (ItemCreate w id params)).1 = { Item.empty with Id := id } ∧
    mapLookup (ItemCreate w id params).Items id =
      some (itemSet { Item.empty with Id := id } params).1 ∧
    (RelRes (RelCreate w2 fromId toId rparams)).1 = { Rel.empty with From := fi, To := ti } ∧
    mapLookup (RelCreate w2 fromId toId rparams).Rels (relIdFromIds fromId toId) =
      some (relSet { Rel.empty with From := fi, To := ti } rparams) := by
  obtain ⟨h1, h2⟩ := ItemCreate_fresh w id params hid hfresh
  obtain ⟨h3, h4⟩ := RelCreate_fresh w2 fromId toId rparams fi ti hfi hfid hti htid hrfresh
  exact ⟨h1, h2, h3, h4⟩

/-- Witness for C10 at concrete inputs: creating `db` with a name on a fresh
world, and the Rel `a::b` with a verb on `wC10`. -/
theorem C10_create_accessor_vs_map_witness :
    ("db" ≠ "" ∧ mapLookup (CreateWorld "w").Items "db" = none ∧
     ItemFetch wC10 "a" = some fiC10 ∧ fiC10.Id = "a" ∧
     ItemFetch wC10 "b" = some tiC10 ∧ tiC10.Id = "b" ∧
     mapLookup wC10.Rels (relIdFromIds "a" "b") = none) ∧
    ((ItemRes (ItemCreate (CreateWorld "w") "db" paramsC10)).1 = { Item.empty with Id := "db" } ∧
     mapLookup (ItemCreate (CreateWorld "w") "db" paramsC10).Items "db" =
       some (itemSet { Item.empty with Id := "db" } paramsC10).1 ∧
     (RelRes (RelCreate wC10 "a" "b" rparamsC10)).1 = { Rel.empty with From := fiC10, To := tiC10 } ∧
     mapLookup (RelCreate wC10 "a" "b" rparamsC10).Rels (relIdFromIds "a" "b") =
       some (relSet { Rel.empty with From := fiC10, To := tiC10 } rparamsC10)) :=
  ⟨by decide,
   C10_create_accessor_vs_map (CreateWorld "w") "db" paramsC10 (by decide) (by decide)
     wC10 "a" "b" rparamsC10 fiC10 tiC10 (by decide) (by decide) (by decide) (by decide)
     (by decide)⟩

end Topolith
